import Mathlib

/-!
Verification of the locomotive regression & gate evaluation engine.

This file gives a shallow embedding of `src/locomotive/analyzer.py` and
`src/locomotive/gate.py` (the rule evaluator, the gate evaluator, and the
result combiner) and proves the specified properties about them.

Python floats are modelled as rationals (`ℚ`); Python `None`-able values as
`Option`; Python dictionaries serving as metric mappings as functions
`String → Val` (where a missing key yields `Val.none`, matching `dict.get`);
the thresholds configuration, whose key order matters for iteration, as an
association list.
-/

/-- A Python value as seen by the evaluators: `None`, a numeric value, or a
value on which `float()` raises (`TypeError`/`ValueError`), e.g. a
non-numeric string. -/
inductive Val where
  | none : Val
  | num (q : ℚ) : Val
  | nonNumeric : Val
deriving DecidableEq

/-- `analyzer._safe_float` / `gate._safe_float`: `None` stays `None`, numeric
values convert, anything on which `float()` raises becomes `None`. -/
def _safe_float (v : Val) : Option ℚ :=
  match v with
  | Val.none => Option.none
  | Val.num q => Option.some q
  | Val.nonNumeric => Option.none

/-- Python `int()` truncation toward zero on a rational. -/
def _trunc (q : ℚ) : ℤ :=
  if q < 0 then ⌈q⌉ else ⌊q⌋

/-- `gate._safe_int`: `int(_safe_float(value))` when the float conversion
succeeds, else `None`. -/
def _safe_int (v : Val) : Option ℤ :=
  match _safe_float v with
  | Option.none => Option.none
  | Option.some q => Option.some (_trunc q)

/-- Python `round()` on a rational: round half to even. -/
def pyRound (q : ℚ) : ℤ :=
  let f : ℤ := ⌊q⌋
  let r : ℚ := q - f
  if r < 1/2 then f
  else if 1/2 < r then f + 1
  else if f % 2 = 0 then f else f + 1

/-- The atomic evaluation outcome for one metric, the dictionary built by
`analyzer.evaluate_rule` and `gate._evaluate_threshold`. -/
structure RResult where
  metric : String
  mode : String
  direction : String
  warn : Option ℚ
  fail : Option ℚ
  current : Option ℚ
  baseline : Option ℚ
  delta_percent : Option ℚ
  status : String
  reason : Option String
deriving DecidableEq

/-- `analyzer.STATUS_SEVERITY`: the severity table; `SKIP` (and anything
else) is absent from it. -/
def STATUS_SEVERITY (s : String) : Option ℕ :=
  if s = "PASS" then Option.some 0
  else if s = "WARNING" then Option.some 1
  else if s = "DEGRADATION" then Option.some 2
  else Option.none

/-- Severity of a status for comparison purposes: statuses outside the table
never displace the accumulator, which is what looking them up as 0 captures
for the fold below. -/
def _sev (s : String) : ℕ :=
  (STATUS_SEVERITY s).getD 0

/-- One step of the worst-status reduction: replace the accumulator when
the result's status is ranked and strictly more severe. -/
def _worst_step (worst : String) (r : RResult) : String :=
  match STATUS_SEVERITY r.status with
  | Option.some sev => if _sev worst < sev then r.status else worst
  | Option.none => worst

/-- The worst-status reduction used over a result list: start from `PASS`
and replace the accumulator whenever a ranked status is strictly more
severe (the loop of `analyzer.analyze`, shared by the combiner). -/
def _worst_status (results : List RResult) : String :=
  results.foldl _worst_step "PASS"

/-- Per-status counts over a result list (the `summary` dictionary). -/
structure Summary where
  PASS : ℕ
  WARNING : ℕ
  DEGRADATION : ℕ
  SKIP : ℕ
deriving DecidableEq

/-- Count results per status, as `analyzer.analyze` does. -/
def _summarize (results : List RResult) : Summary :=
  { PASS := results.countP (fun r => r.status == "PASS")
    WARNING := results.countP (fun r => r.status == "WARNING")
    DEGRADATION := results.countP (fun r => r.status == "DEGRADATION")
    SKIP := results.countP (fun r => r.status == "SKIP") }

/-- The `gate` metadata block attached by `gate.evaluate_gate`. -/
structure GateMeta where
  mode : String
  min_requests : Option ℤ
  warmup_seconds : Option ℤ
  requests_used : Option ℤ
  failures_used : Option ℤ
  evaluated_at : String
deriving DecidableEq

/-- A combined verdict: overall status, timestamp, per-status summary, flat
result list, and (for gate verdicts) the gate metadata block. -/
structure Verdict where
  status : String
  evaluated_at : String
  summary : Summary
  results : List RResult
  gate : Option GateMeta
deriving DecidableEq

/-- Modelled from the spec: `merge_results` (the Result Combiner) is imported
from `analyzer` by `gate.py` and `cli.py`, but its definition is not under
`src/`. Per the spec, section 4.3: it concatenates all result lists
preserving relative order, computes `summary` as counts per status across
the concatenation, computes overall `status` as the maximum-severity status
present under PASS(0) < WARNING(1) < DEGRADATION(2) with SKIP excluded
(all-SKIP yields PASS), and stamps `evaluated_at` with the combination time.
The wall clock is passed in as the `now` argument. -/
def merge_results (result_lists : List (List RResult)) (now : String) : Verdict :=
  let results := result_lists.flatten
  { status := _worst_status results
    evaluated_at := now
    summary := _summarize results
    results := results
    gate := Option.none }

/-- `analyzer.Rule`: a declarative comparison spec, constructed once from
configuration. -/
structure Rule where
  metric : String
  mode : String
  direction : String
  warn : ℚ
  fail : ℚ
deriving DecidableEq

/-- `analyzer._relative_change`: percentage delta plus the direction-aware
non-negative magnitude; undefined (both `None`) for a zero baseline. -/
def _relative_change (current baseline : ℚ) (direction : String) :
    Option ℚ × Option ℚ :=
  if baseline = 0 then (Option.none, Option.none)
  else
    let delta := (current - baseline) / baseline * 100
    let magnitude := if direction = "increase" then max 0 delta else max 0 (-delta)
    (Option.some delta, Option.some magnitude)

/-- `analyzer.evaluate_rule`: evaluate one rule against the current and
baseline metric mappings. -/
def evaluate_rule (rule : Rule) (current baseline : String → Val) : RResult :=
  let current_value := _safe_float (current rule.metric)
  let baseline_value := _safe_float (baseline rule.metric)
  let base : RResult :=
    { metric := rule.metric
      mode := rule.mode
      direction := rule.direction
      warn := Option.some rule.warn
      fail := Option.some rule.fail
      current := current_value
      baseline := baseline_value
      delta_percent := Option.none
      status := "PASS"
      reason := Option.none }
  match current_value with
  | Option.none => { base with status := "SKIP", reason := Option.some "missing current value" }
  | Option.some cv =>
    if rule.mode = "relative" then
      if baseline_value = Option.none ∨ baseline_value = Option.some 0 then
        { base with status := "SKIP", reason := Option.some "missing baseline value" }
      else
        let dm := _relative_change cv (baseline_value.getD 0) rule.direction
        let base := { base with delta_percent := dm.1 }
        match dm.2 with
        | Option.none =>
            { base with status := "SKIP", reason := Option.some "unable to compute relative change" }
        | Option.some magnitude =>
            if rule.fail ≤ magnitude then { base with status := "DEGRADATION" }
            else if rule.warn ≤ magnitude then { base with status := "WARNING" }
            else base
    else if rule.mode = "absolute" then
      let st :=
        if rule.direction = "increase" then
          if rule.fail ≤ cv then "DEGRADATION"
          else if rule.warn ≤ cv then "WARNING"
          else "PASS"
        else
          if cv ≤ rule.fail then "DEGRADATION"
          else if cv ≤ rule.warn then "WARNING"
          else "PASS"
      let dp :=
        match baseline_value with
        | Option.some bv => if bv ≠ 0 then Option.some ((cv - bv) / bv * 100) else Option.none
        | Option.none => Option.none
      { base with status := st, delta_percent := dp }
    else
      { base with status := "SKIP", reason := Option.some "unsupported rule mode" }

/-- `analyzer.analyze`: evaluate every rule, then combine status, summary
and result list into a verdict (timestamp passed in as `now`). -/
def analyze (current baseline : String → Val) (rules : List Rule) (now : String) : Verdict :=
  let results := rules.map (fun rule => evaluate_rule rule current baseline)
  { status := _worst_status results
    evaluated_at := now
    summary := _summarize results
    results := results
    gate := Option.none }

/-- `gate.ERROR_METRICS`: metric names that get an implicit `warn = 0` in
resilience mode. -/
def ERROR_METRICS : List String :=
  ["error_rate", "error_rate_4xx", "error_rate_5xx", "error_rate_503",
   "error_rate_non_503", "failures", "failures_4xx", "failures_5xx",
   "failures_503", "failures_non_503"]

/-- One structured thresholds entry as the gate reads it: the `warn` and
`fail` values (possibly absent or non-numeric) and the `direction` value. -/
structure ThrDict where
  warn : Val
  fail : Val
  direction : Option String
deriving DecidableEq

/-- A raw entry in the configured thresholds mapping: either a structured
dictionary or a bare (non-dict) value. -/
inductive RawEntry where
  | dict (c : ThrDict) : RawEntry
  | val (v : Val) : RawEntry
deriving DecidableEq

/-- `gate._parse_thresholds`: a non-dict configuration yields no thresholds;
dict entries are kept, bare non-`None` entries become a `fail`-only rule,
bare `None` entries are dropped. -/
def _parse_thresholds (raw : Option (List (String × RawEntry))) :
    List (String × ThrDict) :=
  match raw with
  | Option.none => []
  | Option.some entries =>
    entries.filterMap (fun p =>
      match p.2 with
      | RawEntry.dict c => Option.some (p.1, c)
      | RawEntry.val v =>
        if v = Val.none then Option.none
        else Option.some (p.1, { warn := Val.none, fail := v, direction := Option.none }))

/-- Resolution of `str(rule.get("direction") or "increase").lower()`:
missing or empty falls back to `"increase"`, anything else is lowercased. -/
def _resolve_direction (d : Option String) : String :=
  match d with
  | Option.none => "increase"
  | Option.some s => if s = "" then "increase" else s.toLower

/-- The implicit warn inference of `gate._evaluate_threshold`: in resilience
mode an error metric with a fail threshold but no warn threshold gets
`warn = 0`. -/
def gate_eff_warn (metric_name : String) (rule : ThrDict) (mode : String) : Option ℚ :=
  if _safe_float rule.warn = Option.none ∧ metric_name ∈ ERROR_METRICS ∧
      _safe_float rule.fail ≠ Option.none ∧ mode = "resilience"
  then Option.some (0 : ℚ) else _safe_float rule.warn

/-- `gate._evaluate_threshold`: evaluate one metric against its warn/fail
thresholds, subject to eligibility. -/
def _evaluate_threshold (metric_name : String) (current : Option ℚ)
    (rule : ThrDict) (mode : String) (eligible : Bool)
    (skip_reason : Option String) : RResult :=
  let fail := _safe_float rule.fail
  let direction := _resolve_direction rule.direction
  let warn := gate_eff_warn metric_name rule mode
  let base : RResult :=
    { metric := "gate." ++ metric_name
      mode := "gate"
      direction := direction
      warn := warn
      fail := fail
      current := current
      baseline := Option.none
      delta_percent := Option.none
      status := "PASS"
      reason := Option.none }
  let elig_reason : String :=
    match skip_reason with
    | Option.some s => if s = "" then "gate not eligible" else s
    | Option.none => "gate not eligible"
  if eligible = false then
    { base with status := "SKIP", reason := Option.some elig_reason }
  else
    match current with
    | Option.none => { base with status := "SKIP", reason := Option.some "missing current value" }
    | Option.some c =>
      if warn = Option.none ∧ fail = Option.none then
        { base with status := "SKIP", reason := Option.some "missing thresholds" }
      else if direction = "decrease" then
        match fail with
        | Option.some f =>
          if c ≤ f then { base with status := "DEGRADATION" }
          else
            match warn with
            | Option.some w => if c ≤ w then { base with status := "WARNING" } else base
            | Option.none => base
        | Option.none =>
          match warn with
          | Option.some w => if c ≤ w then { base with status := "WARNING" } else base
          | Option.none => base
      else
        match fail with
        | Option.some f =>
          if f < c then { base with status := "DEGRADATION" }
          else
            match warn with
            | Option.some w => if w < c then { base with status := "WARNING" } else base
            | Option.none => base
        | Option.none =>
          match warn with
          | Option.some w => if w < c then { base with status := "WARNING" } else base
          | Option.none => base

/-- The aggregate returned by `gate.summarize_history`. -/
structure HistSummary where
  requests : ℚ
  failures : ℚ
  error_rate : Option ℚ
deriving DecidableEq

/-- One interval sample of the stats history: timestamp (possibly missing),
requests per interval (`rps`) and failures per interval (`failures_s`). -/
structure HistRow where
  timestamp : Option ℚ
  rps : Val
  failures_s : Val
deriving DecidableEq

/-- Python `_safe_float(x) or 0.0`: missing, non-numeric, or falsy (zero)
values contribute 0 to the aggregate. -/
def _num_or_zero (v : Val) : ℚ :=
  (_safe_float v).getD 0

/-- The accumulation loop of `gate.summarize_history`: walk the history with
the running index (substituted for a missing timestamp), skipping samples
within `warmup` of `start_ts`, summing `rps` and `failures_s`. -/
def _sum_history (rows : List HistRow) (start_ts warmup : ℚ) (idx : ℕ)
    (acc : ℚ × ℚ) : ℚ × ℚ :=
  match rows with
  | [] => acc
  | row :: rest =>
    let timestamp := row.timestamp.getD (idx : ℚ)
    if timestamp - start_ts < warmup then
      _sum_history rest start_ts warmup (idx + 1) acc
    else
      _sum_history rest start_ts warmup (idx + 1)
        (acc.1 + _num_or_zero row.rps, acc.2 + _num_or_zero row.failures_s)

/-- `gate.summarize_history`: `None` for empty history; otherwise discard
samples within the warm-up window measured from the first sample's
timestamp, sum the rest, and derive the error rate (null when the aggregate
request count is not positive). -/
def summarize_history (history : List HistRow) (warmup_seconds : ℤ) :
    Option HistSummary :=
  match history with
  | [] => Option.none
  | first :: _ =>
    let start_ts := first.timestamp.getD 0
    let totals := _sum_history history start_ts (warmup_seconds : ℚ) 0 (0, 0)
    if totals.1 ≤ 0 then
      Option.some { requests := 0, failures := totals.2, error_rate := Option.none }
    else
      Option.some
        { requests := totals.1
          failures := totals.2
          error_rate := Option.some (totals.2 / totals.1 * 100) }

/-- The gate configuration: thresholds (a dict, or not a dict at all),
`min_requests` and `warmup_seconds` raw values. -/
structure GateCfg where
  thresholds : Option (List (String × RawEntry))
  min_requests : Val
  warmup_seconds : Val
deriving DecidableEq

/-- Python truthiness of an optional integer. -/
def _truthy_int (v : Option ℤ) : Bool :=
  match v with
  | Option.none => false
  | Option.some n => n ≠ 0

/-- The warm-up adjustment block of `gate.evaluate_gate`: returns the
working metric mapping and the `requests_used` / `failures_used` counts,
overridden from the history summary when `warmup_seconds` is truthy and a
summary is present. -/
def gate_working (metrics : String → Val) (warmup_seconds : Option ℤ)
    (hs : Option HistSummary) : (String → Val) × Option ℤ × Option ℤ :=
  let requests_used := _safe_int (metrics "requests")
  let failures_used := _safe_int (metrics "failures")
  match hs with
  | Option.none => (metrics, requests_used, failures_used)
  | Option.some s =>
    if _truthy_int warmup_seconds then
      let ru := pyRound s.requests
      let fu := pyRound s.failures
      let gm : String → Val := fun k =>
        if k = "failures" then Val.num (fu : ℚ)
        else if k = "requests" then Val.num (ru : ℚ)
        else metrics k
      let gm : String → Val :=
        if ru ≠ 0 then
          fun k => if k = "error_rate" then Val.num ((fu : ℚ) / (ru : ℚ) * 100) else gm k
        else gm
      (gm, Option.some ru, Option.some fu)
    else (metrics, requests_used, failures_used)

/-- The eligibility block of `gate.evaluate_gate`: the warm-up check first,
then the `min_requests` check (whose reason wins when both fire). -/
def gate_eligibility (warmup_seconds : Option ℤ) (hs_present : Bool)
    (min_requests requests_used : Option ℤ) : Bool × Option String :=
  let st : Bool × Option String :=
    if _truthy_int warmup_seconds ∧ hs_present = false then
      (false, Option.some "missing stats history for warmup")
    else (true, Option.none)
  match min_requests with
  | Option.none => st
  | Option.some m =>
    match requests_used with
    | Option.none => (false, Option.some "min_requests not met")
    | Option.some r =>
      if r < m then (false, Option.some "min_requests not met") else st

/-- The effective thresholds of a gate pass: the parsed thresholds, with
the single implicit rule `error_rate: fail 0` synthesized when none are
configured and the mode is acceptance. -/
def gate_thresholds (gate_cfg : GateCfg) (mode : String) : List (String × ThrDict) :=
  let thresholds := _parse_thresholds gate_cfg.thresholds
  if thresholds = [] ∧ mode = "acceptance" then
    [("error_rate", { warn := Val.none, fail := Val.num 0, direction := Option.none })]
  else thresholds

/-- `gate.evaluate_gate`: parse thresholds (synthesizing the acceptance-mode
default), return `None` when none remain, otherwise evaluate every
threshold under the shared eligibility and combine the results, attaching
the gate metadata block. -/
def evaluate_gate (metrics : String → Val) (gate_cfg : GateCfg) (mode : String)
    (history_summary : Option HistSummary) (now : String) : Option Verdict :=
  let thresholds := gate_thresholds gate_cfg mode
  if thresholds = [] then Option.none
  else
    let min_requests := _safe_int gate_cfg.min_requests
    let warmup_seconds := _safe_int gate_cfg.warmup_seconds
    let work := gate_working metrics warmup_seconds history_summary
    let gate_metrics := work.1
    let requests_used := work.2.1
    let failures_used := work.2.2
    let elig := gate_eligibility warmup_seconds history_summary.isSome min_requests requests_used
    let results := thresholds.map (fun p =>
      _evaluate_threshold p.1 (_safe_float (gate_metrics p.1)) p.2 mode elig.1 elig.2)
    let combined := merge_results [results] now
    Option.some
      { combined with
        gate := Option.some
          { mode := mode
            min_requests := min_requests
            warmup_seconds := warmup_seconds
            requests_used := requests_used
            failures_used := failures_used
            evaluated_at := now } }

/-- The result list carried by an optional verdict (empty when the gate did
not apply). -/
def resultsOf (v : Option Verdict) : List RResult :=
  match v with
  | Option.none => []
  | Option.some verdict => verdict.results

/-- A concrete degraded result (for exercising the combiner). -/
def resDegraded : RResult :=
  { metric := "a", mode := "absolute", direction := "increase"
    warn := Option.some 1, fail := Option.some 2, current := Option.some 3
    baseline := Option.none, delta_percent := Option.none
    status := "DEGRADATION", reason := Option.none }

/-- A concrete passing result (for exercising the combiner). -/
def resPassing : RResult :=
  { metric := "b", mode := "absolute", direction := "increase"
    warn := Option.some 9, fail := Option.some 9, current := Option.some 3
    baseline := Option.none, delta_percent := Option.none
    status := "PASS", reason := Option.none }

/-- The spec's warm-up aggregation example history. -/
def exHist : List HistRow :=
  [{ timestamp := Option.some 0, rps := Val.num 10, failures_s := Val.num 0 },
   { timestamp := Option.some 5, rps := Val.num 20, failures_s := Val.num 2 },
   { timestamp := Option.some 15, rps := Val.num 30, failures_s := Val.num 3 }]

/-- A concrete metric mapping with 500 requests and an extreme error rate. -/
def exMetrics : String → Val := fun k =>
  if k = "requests" then Val.num 500
  else if k = "error_rate" then Val.num 99
  else Val.none

/-- A concrete gate configuration demanding 1000 requests with a zero-fail
error-rate threshold. -/
def exGateCfg : GateCfg :=
  { thresholds := Option.some
      [("error_rate", RawEntry.dict { warn := Val.none, fail := Val.num 0, direction := Option.none })]
    min_requests := Val.num 1000
    warmup_seconds := Val.none }

/-- A concrete gate configuration with no thresholds at all. -/
def exEmptyCfg : GateCfg :=
  { thresholds := Option.none, min_requests := Val.none, warmup_seconds := Val.none }

/-- A concrete relative increase rule (warn 10%, fail 20%). -/
def exRelRule : Rule :=
  { metric := "p95", mode := "relative", direction := "increase", warn := 10, fail := 20 }

/-- A concrete absolute decrease rule (warn at 200, fail at 100). -/
def exAbsRule : Rule :=
  { metric := "rps", mode := "absolute", direction := "decrease", warn := 200, fail := 100 }

/-- A concrete metric mapping holding a single named value. -/
def singletonMetrics (name : String) (v : Val) : String → Val :=
  fun k => if k = name then v else Val.none

/-- The samples of a history outside the warm-up window that starts at
`t0` (a missing timestamp read as 0 here; the theorems below only use this
under the hypothesis that every timestamp is present). -/
def keptRows (history : List HistRow) (t0 w : ℚ) : List HistRow :=
  history.filter (fun row => ! decide (row.timestamp.getD 0 - t0 < w))

/-- Total requests over the post-warm-up samples. -/
def keptRequests (history : List HistRow) (t0 w : ℚ) : ℚ :=
  ((keptRows history t0 w).map (fun row => _num_or_zero row.rps)).sum

/-- Total failures over the post-warm-up samples. -/
def keptFailures (history : List HistRow) (t0 w : ℚ) : ℚ :=
  ((keptRows history t0 w).map (fun row => _num_or_zero row.failures_s)).sum

/-! ## Properties of the worst-status reduction -/

theorem sev_of_ranked {s : String} {k : ℕ} (h : STATUS_SEVERITY s = Option.some k) :
    _sev s = k := by
  simp [_sev, h]

theorem sev_le_step (acc : String) (r : RResult) :
    _sev acc ≤ _sev (_worst_step acc r) := by
  unfold _worst_step
  cases h : STATUS_SEVERITY r.status with
  | none => exact le_refl _
  | some sev =>
    by_cases hlt : _sev acc < sev
    · simp only [hlt, if_true]
      exact le_of_lt (by rw [sev_of_ranked h]; exact hlt)
    · simp only [hlt, if_false]
      exact le_refl _

theorem sev_r_le_step (acc : String) (r : RResult) :
    _sev r.status ≤ _sev (_worst_step acc r) := by
  unfold _worst_step
  cases h : STATUS_SEVERITY r.status with
  | none =>
    have : _sev r.status = 0 := by simp [_sev, h]
    simp [this]
  | some sev =>
    have hr : _sev r.status = sev := sev_of_ranked h
    by_cases hlt : _sev acc < sev
    · simp only [hlt, if_true]
      exact le_refl _
    · simp only [hlt, if_false]
      rw [hr]
      exact le_of_not_lt hlt

theorem step_self_or (acc : String) (r : RResult) :
    _worst_step acc r = acc ∨ _worst_step acc r = r.status := by
  unfold _worst_step
  cases STATUS_SEVERITY r.status with
  | none => exact Or.inl rfl
  | some sev =>
    by_cases hlt : _sev acc < sev
    · simp only [hlt, if_true]
      exact Or.inr trivial
    · simp only [hlt, if_false]
      exact Or.inl trivial

theorem sev_le_foldl (l : List RResult) (acc : String) :
    _sev acc ≤ _sev (l.foldl _worst_step acc) := by
  induction l generalizing acc with
  | nil => exact le_refl _
  | cons r rest ih =>
    simp only [List.foldl_cons]
    exact le_trans (sev_le_step acc r) (ih (_worst_step acc r))

theorem sev_mem_le_foldl (l : List RResult) (acc : String) :
    ∀ r ∈ l, _sev r.status ≤ _sev (l.foldl _worst_step acc) := by
  induction l generalizing acc with
  | nil => intro r hr; cases hr
  | cons r0 rest ih =>
    intro r hr
    simp only [List.foldl_cons]
    rcases List.mem_cons.mp hr with h | h
    · subst h
      exact le_trans (sev_r_le_step acc r) (sev_le_foldl rest (_worst_step acc r))
    · exact ih (_worst_step acc r0) r h

theorem foldl_attained (l : List RResult) (acc : String) :
    l.foldl _worst_step acc = acc ∨ ∃ r ∈ l, l.foldl _worst_step acc = r.status := by
  induction l generalizing acc with
  | nil => exact Or.inl rfl
  | cons r0 rest ih =>
    simp only [List.foldl_cons]
    rcases ih (_worst_step acc r0) with h | ⟨r, hr, he⟩
    · rw [h]
      rcases step_self_or acc r0 with h0 | h0
      · exact Or.inl h0
      · exact Or.inr ⟨r0, List.mem_cons_self r0 rest, h0⟩
    · exact Or.inr ⟨r, List.mem_cons_of_mem r0 hr, he⟩

theorem foldl_unranked (l : List RResult) (acc : String)
    (h : ∀ r ∈ l, STATUS_SEVERITY r.status = Option.none) :
    l.foldl _worst_step acc = acc := by
  induction l generalizing acc with
  | nil => rfl
  | cons r0 rest ih =>
    simp only [List.foldl_cons]
    have h0 : _worst_step acc r0 = acc := by
      unfold _worst_step
      rw [h r0 (List.mem_cons_self r0 rest)]
    rw [h0]
    exact ih acc (fun r hr => h r (List.mem_cons_of_mem r0 hr))

/-- C1: `merge_results` concatenates the input lists preserving relative
order, counts results per status, stamps the supplied time, and its overall
status is the most severe status present under PASS(0) < WARNING(1) <
DEGRADATION(2) with SKIP excluded from severity; an all-SKIP result list
yields overall status PASS. -/
theorem merge_results_correct (lists : List (List RResult)) (now : String) :
    (merge_results lists now).results = lists.flatten ∧
    (merge_results lists now).evaluated_at = now ∧
    (merge_results lists now).summary.PASS
      = lists.flatten.countP (fun r => r.status == "PASS") ∧
    (merge_results lists now).summary.WARNING
      = lists.flatten.countP (fun r => r.status == "WARNING") ∧
    (merge_results lists now).summary.DEGRADATION
      = lists.flatten.countP (fun r => r.status == "DEGRADATION") ∧
    (merge_results lists now).summary.SKIP
      = lists.flatten.countP (fun r => r.status == "SKIP") ∧
    (∀ r ∈ lists.flatten, _sev r.status ≤ _sev (merge_results lists now).status) ∧
    ((merge_results lists now).status = "PASS" ∨
      ∃ r ∈ lists.flatten, r.status = (merge_results lists now).status) ∧
    ((∀ r ∈ lists.flatten, r.status = "SKIP") → (merge_results lists now).status = "PASS") := by
  refine ⟨rfl, rfl, rfl, rfl, rfl, rfl, ?_, ?_, ?_⟩
  · intro r hr
    exact sev_mem_le_foldl lists.flatten "PASS" r hr
  · rcases foldl_attained lists.flatten "PASS" with h | ⟨r, hr, he⟩
    · exact Or.inl h
    · exact Or.inr ⟨r, hr, he.symm⟩
  · intro hall
    apply foldl_unranked
    intro r hr
    rw [hall r hr]
    rfl

/-- C1 witness: merging a degraded list with a passing list yields overall
DEGRADATION, summary `PASS 1, WARNING 0, DEGRADATION 1, SKIP 0`, and the
two results in order. -/
theorem merge_results_correct_witness :
    (merge_results [[resDegraded], [resPassing]] "t").results = [resDegraded, resPassing] ∧
    (merge_results [[resDegraded], [resPassing]] "t").status = "DEGRADATION" ∧
    (merge_results [[resDegraded], [resPassing]] "t").summary =
      { PASS := 1, WARNING := 0, DEGRADATION := 1, SKIP := 0 } := by
  have h := merge_results_correct [[resDegraded], [resPassing]] "t"
  refine ⟨h.1.trans (by rfl), by rfl, ?_⟩
  have hP := h.2.2.1
  have hW := h.2.2.2.1
  have hD := h.2.2.2.2.1
  have hS := h.2.2.2.2.2.1
  cases hsum : (merge_results [[resDegraded], [resPassing]] "t").summary
  rw [hsum] at hP hW hD hS
  simp only [Summary.mk.injEq]
  refine ⟨hP.trans (by rfl), hW.trans (by rfl), hD.trans (by rfl), hS.trans (by rfl)⟩

/-! ## Properties of the gate per-threshold evaluation -/

theorem eval_threshold_warn_field (name : String) (cur : Option ℚ) (rule : ThrDict)
    (mode : String) (el : Bool) (sr : Option String) :
    (_evaluate_threshold name cur rule mode el sr).warn = gate_eff_warn name rule mode := by
  simp only [_evaluate_threshold]
  cases cur
  all_goals dsimp only
  all_goals repeat' split
  all_goals rfl

theorem eval_threshold_fields (name : String) (cur : Option ℚ) (rule : ThrDict)
    (mode : String) (el : Bool) (sr : Option String) :
    (_evaluate_threshold name cur rule mode el sr).metric = "gate." ++ name ∧
    (_evaluate_threshold name cur rule mode el sr).mode = "gate" ∧
    (_evaluate_threshold name cur rule mode el sr).baseline = Option.none ∧
    (_evaluate_threshold name cur rule mode el sr).delta_percent = Option.none := by
  simp only [_evaluate_threshold]
  cases cur
  all_goals dsimp only
  all_goals repeat' split
  all_goals exact ⟨rfl, rfl, rfl, rfl⟩

theorem eval_threshold_increase_status (name : String) (c f : ℚ) (rule : ThrDict)
    (mode : String) (sr : Option String)
    (hdir : _resolve_direction rule.direction = "increase")
    (hfail : _safe_float rule.fail = Option.some f) :
    (_evaluate_threshold name (Option.some c) rule mode true sr).status =
      (if f < c then "DEGRADATION"
       else match gate_eff_warn name rule mode with
            | Option.some w => if w < c then "WARNING" else "PASS"
            | Option.none => "PASS") := by
  have hsne : ("increase" : String) ≠ "decrease" := by decide
  rcases hwe : gate_eff_warn name rule mode with _ | w
  · rcases Classical.em (f < c) with hfc | hfc <;>
      simp [_evaluate_threshold, hdir, hfail, hwe, hfc, hsne]
  · rcases Classical.em (f < c) with hfc | hfc
    · simp [_evaluate_threshold, hdir, hfail, hwe, hfc, hsne]
    · rcases Classical.em (w < c) with hwc | hwc <;>
        simp [_evaluate_threshold, hdir, hfail, hwe, hfc, hwc, hsne]

/-- C2: in the gate's per-threshold evaluation with direction `increase`,
for an eligible metric with a numeric current value and a numeric fail
threshold, status is DEGRADATION iff `current > fail` (strict), else
WARNING iff the effective warn threshold is present with `current > warn`
(strict), else PASS; in particular `current = 0` with `fail = 0` passes. -/
theorem gate_increase_strict_correct (name : String) (c f : ℚ) (rule : ThrDict)
    (mode : String) (sr : Option String)
    (hdir : _resolve_direction rule.direction = "increase")
    (hfail : _safe_float rule.fail = Option.some f) :
    ((_evaluate_threshold name (Option.some c) rule mode true sr).status = "DEGRADATION" ↔ f < c) ∧
    ((_evaluate_threshold name (Option.some c) rule mode true sr).status = "WARNING" ↔
      (¬ f < c ∧ ∃ w, (_evaluate_threshold name (Option.some c) rule mode true sr).warn = Option.some w ∧ w < c)) ∧
    ((_evaluate_threshold name (Option.some c) rule mode true sr).status = "PASS" ↔
      (¬ f < c ∧ ∀ w, (_evaluate_threshold name (Option.some c) rule mode true sr).warn = Option.some w → ¬ w < c)) ∧
    (_evaluate_threshold "error_rate_non_503" (Option.some 0)
        { warn := Val.none, fail := Val.num 0, direction := Option.none }
        "resilience" true Option.none).status = "PASS" := by
  have hst := eval_threshold_increase_status name c f rule mode sr hdir hfail
  have hwf := eval_threshold_warn_field name (Option.some c) rule mode true sr
  rw [hst, hwf]
  refine ⟨?_, ?_, ?_, by rfl⟩
  · rcases Classical.em (f < c) with hfc | hfc
    · simp [hfc]
    · rcases hwe : gate_eff_warn name rule mode with _ | w
      · simp [hfc, hwe]
      · rcases Classical.em (w < c) with hwc | hwc <;> simp [hfc, hwe, hwc]
  · rcases Classical.em (f < c) with hfc | hfc
    · simp [hfc]
    · rcases hwe : gate_eff_warn name rule mode with _ | w
      · simp [hfc, hwe]
      · rcases Classical.em (w < c) with hwc | hwc <;> simp [hfc, hwe, hwc]
  · rcases Classical.em (f < c) with hfc | hfc
    · simp [hfc]
    · rcases hwe : gate_eff_warn name rule mode with _ | w
      · simp [hfc, hwe]
      · rcases Classical.em (w < c) with hwc | hwc
        · simp [hfc, hwe, hwc]
        · simp [hfc, hwe, hwc, le_of_not_lt hwc]

/-- C2 witness: `current = 5` against `fail = 3` degrades, and
`error_rate_non_503 = 0` against `fail = 0` passes. -/
theorem gate_increase_strict_correct_witness :
    (_evaluate_threshold "latency" (Option.some 5)
        { warn := Val.none, fail := Val.num 3, direction := Option.none }
        "resilience" true Option.none).status = "DEGRADATION" ∧
    (_evaluate_threshold "error_rate_non_503" (Option.some 0)
        { warn := Val.none, fail := Val.num 0, direction := Option.none }
        "resilience" true Option.none).status = "PASS" := by
  have h := gate_increase_strict_correct "latency" 5 3
    { warn := Val.none, fail := Val.num 3, direction := Option.none }
    "resilience" Option.none (by rfl) (by rfl)
  exact ⟨h.1.mpr (by norm_num), h.2.2.2⟩

/-! ## Properties of the rule evaluator -/

theorem rel_change_parts (c b : ℚ) (d : String) (hbz : b ≠ 0) :
    _relative_change c b d =
      (Option.some ((c - b) / b * 100),
       Option.some (if d = "increase" then max 0 ((c - b) / b * 100)
                    else max 0 (-((c - b) / b * 100)))) := by
  simp [_relative_change, hbz]

theorem evaluate_rule_relative (rule : Rule) (current baseline : String → Val) (c b : ℚ)
    (hm : rule.mode = "relative")
    (hc : _safe_float (current rule.metric) = Option.some c)
    (hb : _safe_float (baseline rule.metric) = Option.some b)
    (hbz : b ≠ 0) :
    evaluate_rule rule current baseline =
      { metric := rule.metric, mode := rule.mode, direction := rule.direction
        warn := Option.some rule.warn, fail := Option.some rule.fail
        current := Option.some c, baseline := Option.some b
        delta_percent := Option.some ((c - b) / b * 100)
        status :=
          (if rule.fail ≤ (if rule.direction = "increase" then max 0 ((c - b) / b * 100)
                           else max 0 (-((c - b) / b * 100))) then "DEGRADATION"
           else if rule.warn ≤ (if rule.direction = "increase" then max 0 ((c - b) / b * 100)
                                else max 0 (-((c - b) / b * 100))) then "WARNING"
           else "PASS")
        reason := Option.none } := by
  simp only [evaluate_rule, hm, hc, hb, if_true]
  rw [if_neg (by simp [hbz])]
  simp only [Option.getD_some]
  rw [rel_change_parts c b rule.direction hbz]
  dsimp only
  split_ifs <;> simp [hm]

theorem evaluate_rule_absolute (rule : Rule) (current baseline : String → Val) (c : ℚ)
    (hm : rule.mode = "absolute")
    (hc : _safe_float (current rule.metric) = Option.some c) :
    evaluate_rule rule current baseline =
      { metric := rule.metric, mode := rule.mode, direction := rule.direction
        warn := Option.some rule.warn, fail := Option.some rule.fail
        current := Option.some c, baseline := _safe_float (baseline rule.metric)
        delta_percent :=
          (match _safe_float (baseline rule.metric) with
           | Option.some bv => if bv ≠ 0 then Option.some ((c - bv) / bv * 100) else Option.none
           | Option.none => Option.none)
        status :=
          (if rule.direction = "increase" then
            if rule.fail ≤ c then "DEGRADATION" else if rule.warn ≤ c then "WARNING" else "PASS"
           else
            if c ≤ rule.fail then "DEGRADATION" else if c ≤ rule.warn then "WARNING" else "PASS")
        reason := Option.none } := by
  simp only [evaluate_rule, hm, hc]
  rw [if_neg (by decide : ¬ ("absolute" : String) = "relative")]
  simp only [if_true]

theorem evaluate_rule_missing_baseline (rule : Rule) (current baseline : String → Val) (c : ℚ)
    (hm : rule.mode = "relative")
    (hc : _safe_float (current rule.metric) = Option.some c)
    (hb : _safe_float (baseline rule.metric) = Option.none ∨
          _safe_float (baseline rule.metric) = Option.some 0) :
    evaluate_rule rule current baseline =
      { metric := rule.metric, mode := rule.mode, direction := rule.direction
        warn := Option.some rule.warn, fail := Option.some rule.fail
        current := Option.some c, baseline := _safe_float (baseline rule.metric)
        delta_percent := Option.none
        status := "SKIP", reason := Option.some "missing baseline value" } := by
  simp only [evaluate_rule, hm, hc, if_true]
  rw [if_pos hb]

theorem rel_skip_unreachable (rule : Rule) (current baseline : String → Val) :
    (evaluate_rule rule current baseline).reason ≠
      Option.some "unable to compute relative change" := by
  simp only [evaluate_rule]
  cases hcv : _safe_float (current rule.metric)
  all_goals dsimp only
  all_goals repeat' split
  all_goals try simp
  rename_i hnot x heq
  cases hbv : _safe_float (baseline rule.metric) with
  | none => exact hnot (Or.inl hbv)
  | some b =>
    have hb0 : b ≠ 0 := fun h => hnot (Or.inr (by rw [hbv, h]))
    rw [hbv] at heq
    simp only [Option.getD_some] at heq
    rw [rel_change_parts _ b _ hb0] at heq
    simp at heq

/-- C3: in relative mode with direction `increase`, numeric current value
and numeric non-zero baseline, the rule evaluator returns DEGRADATION iff
`max(0,(current−baseline)/baseline×100) ≥ fail`, else WARNING iff that
magnitude `≥ warn`, else PASS — both comparisons inclusive. -/
theorem rule_relative_increase_correct (rule : Rule) (current baseline : String → Val)
    (c b : ℚ)
    (hm : rule.mode = "relative") (hd : rule.direction = "increase")
    (hc : _safe_float (current rule.metric) = Option.some c)
    (hb : _safe_float (baseline rule.metric) = Option.some b) (hbz : b ≠ 0) :
    ((evaluate_rule rule current baseline).status = "DEGRADATION" ↔
      rule.fail ≤ max 0 ((c - b) / b * 100)) ∧
    ((evaluate_rule rule current baseline).status = "WARNING" ↔
      (¬ rule.fail ≤ max 0 ((c - b) / b * 100) ∧ rule.warn ≤ max 0 ((c - b) / b * 100))) ∧
    ((evaluate_rule rule current baseline).status = "PASS" ↔
      (¬ rule.fail ≤ max 0 ((c - b) / b * 100) ∧ ¬ rule.warn ≤ max 0 ((c - b) / b * 100))) := by
  rw [evaluate_rule_relative rule current baseline c b hm hc hb hbz]
  simp only [hd, if_true]
  by_cases h1 : rule.fail ≤ max 0 ((c - b) / b * 100)
  · simp [h1]
  · by_cases h2 : rule.warn ≤ max 0 ((c - b) / b * 100) <;> simp [h1, h2]

/-- C3 witness: current 130 against baseline 100 is a 30% increase, at or
above the 20% fail threshold, hence DEGRADATION. -/
theorem rule_relative_increase_correct_witness :
    (evaluate_rule exRelRule (singletonMetrics "p95" (Val.num 130))
      (singletonMetrics "p95" (Val.num 100))).status = "DEGRADATION" := by
  have h := rule_relative_increase_correct exRelRule
    (singletonMetrics "p95" (Val.num 130)) (singletonMetrics "p95" (Val.num 100))
    130 100 rfl rfl (by rfl) (by rfl) (by norm_num)
  exact h.1.mpr (by norm_num [exRelRule, le_max_iff])

/-- C4: in absolute mode with direction `decrease` and a numeric current
value, the rule evaluator returns DEGRADATION iff `current ≤ fail`, WARNING
iff `fail < current ≤ warn`, the status never depends on the baseline
mapping, and `delta_percent` is populated exactly when the baseline value
is numeric and non-zero. -/
theorem rule_absolute_decrease_correct (rule : Rule) (current baseline : String → Val)
    (c : ℚ)
    (hm : rule.mode = "absolute") (hd : rule.direction = "decrease")
    (hc : _safe_float (current rule.metric) = Option.some c) :
    ((evaluate_rule rule current baseline).status = "DEGRADATION" ↔ c ≤ rule.fail) ∧
    ((evaluate_rule rule current baseline).status = "WARNING" ↔
      (rule.fail < c ∧ c ≤ rule.warn)) ∧
    (∀ baseline2 : String → Val,
      (evaluate_rule rule current baseline2).status =
        (evaluate_rule rule current baseline).status) ∧
    ((evaluate_rule rule current baseline).delta_percent ≠ Option.none ↔
      (∃ bv, _safe_float (baseline rule.metric) = Option.some bv ∧ bv ≠ 0)) := by
  have hdec : ¬ rule.direction = "increase" := by rw [hd]; decide
  rw [evaluate_rule_absolute rule current baseline c hm hc]
  refine ⟨?_, ?_, ?_, ?_⟩
  · simp only [hdec, if_false]
    by_cases h1 : c ≤ rule.fail
    · simp [h1]
    · by_cases h2 : c ≤ rule.warn <;> simp [h1, h2]
  · simp only [hdec, if_false]
    by_cases h1 : c ≤ rule.fail
    · simp [h1, le_of_lt]
    · by_cases h2 : c ≤ rule.warn <;> simp [h1, h2, not_le.mp h1]
  · intro baseline2
    rw [evaluate_rule_absolute rule current baseline2 c hm hc]
  · cases hbv : _safe_float (baseline rule.metric) with
    | none => simp
    | some bv =>
      by_cases hz : bv = 0
      · simp [hz]
      · simp [hz]

/-- C4 witness: current 150 against `fail = 100`, `warn = 200` in a
decrease-direction absolute rule is above fail but at or below warn, hence
WARNING. -/
theorem rule_absolute_decrease_correct_witness :
    (evaluate_rule exAbsRule (singletonMetrics "rps" (Val.num 150))
      (fun _ => Val.none)).status = "WARNING" := by
  have h := rule_absolute_decrease_correct exAbsRule
    (singletonMetrics "rps" (Val.num 150)) (fun _ => Val.none) 150 rfl rfl (by rfl)
  exact h.2.1.mpr (by norm_num [exAbsRule])

/-- C5: in relative mode with a numeric current value, a missing,
non-numeric, or zero baseline value yields status SKIP with reason
"missing baseline value" and a null `delta_percent` (the evaluator is a
total function, so no error is raised). -/
theorem rule_missing_baseline_skip (rule : Rule) (current baseline : String → Val) (c : ℚ)
    (hm : rule.mode = "relative")
    (hc : _safe_float (current rule.metric) = Option.some c)
    (hb : _safe_float (baseline rule.metric) = Option.none ∨
          _safe_float (baseline rule.metric) = Option.some 0) :
    (evaluate_rule rule current baseline).status = "SKIP" ∧
    (evaluate_rule rule current baseline).reason = Option.some "missing baseline value" ∧
    (evaluate_rule rule current baseline).delta_percent = Option.none := by
  rw [evaluate_rule_missing_baseline rule current baseline c hm hc hb]
  exact ⟨rfl, rfl, rfl⟩

/-- C5 witness: a relative rule with baseline 0 skips with reason
"missing baseline value" and null delta. -/
theorem rule_missing_baseline_skip_witness :
    (evaluate_rule exRelRule (singletonMetrics "p95" (Val.num 120))
      (singletonMetrics "p95" (Val.num 0))).status = "SKIP" ∧
    (evaluate_rule exRelRule (singletonMetrics "p95" (Val.num 120))
      (singletonMetrics "p95" (Val.num 0))).reason = Option.some "missing baseline value" ∧
    (evaluate_rule exRelRule (singletonMetrics "p95" (Val.num 120))
      (singletonMetrics "p95" (Val.num 0))).delta_percent = Option.none := by
  exact rule_missing_baseline_skip exRelRule
    (singletonMetrics "p95" (Val.num 120)) (singletonMetrics "p95" (Val.num 0))
    120 rfl (by rfl) (Or.inr (by rfl))

/-- C9: the relative-mode SKIP branch with reason "unable to compute
relative change" is unreachable — no result of `evaluate_rule` ever carries
that reason, because `_relative_change` returns a non-null magnitude
whenever the baseline is non-zero. -/
theorem unable_reason_unreachable (rule : Rule) (current baseline : String → Val) :
    ((evaluate_rule rule current baseline).reason ≠
      Option.some "unable to compute relative change") ∧
    (∀ c b : ℚ, ∀ d : String, b ≠ 0 → (_relative_change c b d).2 ≠ Option.none) := by
  constructor
  · exact rel_skip_unreachable rule current baseline
  · intro c b d hb
    rw [rel_change_parts c b d hb]
    simp

/-- C9 witness: a concrete relative evaluation with baseline 100 does not
carry the unreachable reason, and `_relative_change` at baseline 100 has a
non-null magnitude. -/
theorem unable_reason_unreachable_witness :
    ((evaluate_rule exRelRule (singletonMetrics "p95" (Val.num 120))
        (singletonMetrics "p95" (Val.num 100))).reason ≠
      Option.some "unable to compute relative change") ∧
    (_relative_change 120 100 "increase").2 ≠ Option.none := by
  have h := unable_reason_unreachable exRelRule
    (singletonMetrics "p95" (Val.num 120)) (singletonMetrics "p95" (Val.num 100))
  exact ⟨h.1, h.2 120 100 "increase" (by norm_num)⟩

/-! ## Properties of the gate evaluator -/

theorem eval_threshold_ineligible (name : String) (cur : Option ℚ) (rule : ThrDict)
    (mode : String) (s : String) (hs : s ≠ "") :
    (_evaluate_threshold name cur rule mode false (Option.some s)).status = "SKIP" ∧
    (_evaluate_threshold name cur rule mode false (Option.some s)).reason = Option.some s := by
  simp [_evaluate_threshold, hs]

/-- C6: when `min_requests` is set and the (possibly warm-up-adjusted)
requests count is unknown or strictly below it, every per-threshold result
of `evaluate_gate` is SKIP with reason "min_requests not met", regardless
of metric values and thresholds. -/
theorem gate_min_requests_skips (metrics : String → Val) (cfg : GateCfg) (mode : String)
    (hs : Option HistSummary) (now : String) (m : ℤ)
    (hmin : _safe_int cfg.min_requests = Option.some m)
    (hreq : (gate_working metrics (_safe_int cfg.warmup_seconds) hs).2.1 = Option.none ∨
            ∃ r : ℤ, (gate_working metrics (_safe_int cfg.warmup_seconds) hs).2.1 =
              Option.some r ∧ r < m) :
    ∀ res ∈ resultsOf (evaluate_gate metrics cfg mode hs now),
      res.status = "SKIP" ∧ res.reason = Option.some "min_requests not met" := by
  have helig : gate_eligibility (_safe_int cfg.warmup_seconds) hs.isSome
      (_safe_int cfg.min_requests)
      (gate_working metrics (_safe_int cfg.warmup_seconds) hs).2.1 =
      (false, Option.some "min_requests not met") := by
    unfold gate_eligibility
    rw [hmin]
    rcases hreq with h | ⟨r, hr, hlt⟩
    · rw [h]
    · rw [hr]
      dsimp only
      rw [if_pos hlt]
  intro res hres
  simp only [evaluate_gate] at hres
  by_cases ht : gate_thresholds cfg mode = []
  · rw [if_pos ht] at hres
    simp [resultsOf] at hres
  · rw [if_neg ht] at hres
    simp only [resultsOf, merge_results, helig] at hres
    simp only [List.flatten] at hres
    rw [List.append_nil] at hres
    obtain ⟨p, hp, hpe⟩ := List.mem_map.mp hres
    rw [← hpe]
    exact eval_threshold_ineligible p.1 _ p.2 mode "min_requests not met" (by decide)

/-- C6 witness: `min_requests = 1000` with 500 requests and an extreme
error rate of 99 yields a single SKIP result with the eligibility reason. -/
theorem gate_min_requests_skips_witness :
    ((resultsOf (evaluate_gate exMetrics exGateCfg "resilience" Option.none "t")).map
      (fun r => (r.status, r.reason))) = [("SKIP", Option.some "min_requests not met")] := by
  have h := gate_min_requests_skips exMetrics exGateCfg "resilience" Option.none "t"
    1000 (by rfl) (Or.inr ⟨500, by rfl, by norm_num⟩)
  have hres : resultsOf (evaluate_gate exMetrics exGateCfg "resilience" Option.none "t")
      = [_evaluate_threshold "error_rate" (Option.some 99)
          { warn := Val.none, fail := Val.num 0, direction := Option.none }
          "resilience" false (Option.some "min_requests not met")] := rfl
  rw [hres] at h ⊢
  obtain ⟨h1, h2⟩ := h _ (List.mem_singleton_self _)
  simp [h1, h2]

/-- C7: `evaluate_gate` returns null exactly when the parsed thresholds are
empty and the mode is not "acceptance"; with empty parsed thresholds in
acceptance mode it instead evaluates the single synthesized threshold
`error_rate: fail 0` and returns a verdict. -/
theorem gate_none_iff (metrics : String → Val) (cfg : GateCfg) (mode : String)
    (hs : Option HistSummary) (now : String) :
    (evaluate_gate metrics cfg mode hs now = Option.none ↔
      (_parse_thresholds cfg.thresholds = [] ∧ ¬ mode = "acceptance")) ∧
    (_parse_thresholds cfg.thresholds = [] → mode = "acceptance" →
      resultsOf (evaluate_gate metrics cfg mode hs now) =
        [_evaluate_threshold "error_rate"
          (_safe_float ((gate_working metrics (_safe_int cfg.warmup_seconds) hs).1 "error_rate"))
          { warn := Val.none, fail := Val.num 0, direction := Option.none } mode
          (gate_eligibility (_safe_int cfg.warmup_seconds) hs.isSome (_safe_int cfg.min_requests)
            (gate_working metrics (_safe_int cfg.warmup_seconds) hs).2.1).1
          (gate_eligibility (_safe_int cfg.warmup_seconds) hs.isSome (_safe_int cfg.min_requests)
            (gate_working metrics (_safe_int cfg.warmup_seconds) hs).2.1).2]) := by
  constructor
  · simp only [evaluate_gate]
    by_cases ht : gate_thresholds cfg mode = []
    · rw [if_pos ht]
      simp only [true_iff]
      unfold gate_thresholds at ht
      by_cases hp : _parse_thresholds cfg.thresholds = []
      · by_cases hm : mode = "acceptance"
        · rw [if_pos ⟨hp, hm⟩] at ht
          exact absurd ht (by simp)
        · exact ⟨hp, hm⟩
      · rw [if_neg (by intro hor; exact hp hor.1)] at ht
        exact absurd ht hp
    · rw [if_neg ht]
      constructor
      · intro hcontra
        exact absurd hcontra (Option.some_ne_none _)
      · intro hpm
        exact absurd (by unfold gate_thresholds; rw [hpm.1]; simp [hpm.2] :
          gate_thresholds cfg mode = []) ht
  · intro hp hm
    have ht : gate_thresholds cfg mode =
        [("error_rate", { warn := Val.none, fail := Val.num 0, direction := Option.none })] := by
      unfold gate_thresholds
      rw [hp]
      simp [hm]
    simp only [evaluate_gate, ht]
    rw [if_neg (by simp)]
    simp [resultsOf, merge_results]

/-- C7 witness: an empty thresholds configuration yields no verdict in
resilience mode, and the synthesized zero-tolerance error-rate threshold in
acceptance mode. -/
theorem gate_none_iff_witness :
    evaluate_gate exMetrics exEmptyCfg "resilience" Option.none "t" = Option.none ∧
    resultsOf (evaluate_gate exMetrics exEmptyCfg "acceptance" Option.none "t") =
      [_evaluate_threshold "error_rate" (Option.some 99)
        { warn := Val.none, fail := Val.num 0, direction := Option.none }
        "acceptance" true Option.none] := by
  have h1 := gate_none_iff exMetrics exEmptyCfg "resilience" Option.none "t"
  have h2 := gate_none_iff exMetrics exEmptyCfg "acceptance" Option.none "t"
  refine ⟨h1.1.mpr ⟨rfl, by decide⟩, ?_⟩
  rw [h2.2 rfl rfl]
  rfl

/-- C10: every per-threshold result produced by the gate evaluator carries
a metric name equal to a configured metric name prefixed with "gate.",
mode "gate", and null baseline and delta_percent. -/
theorem gate_results_tagged (metrics : String → Val) (cfg : GateCfg) (mode : String)
    (hs : Option HistSummary) (now : String) :
    ∀ res ∈ resultsOf (evaluate_gate metrics cfg mode hs now),
      ∃ p ∈ gate_thresholds cfg mode,
        res.metric = "gate." ++ p.1 ∧ res.mode = "gate" ∧
        res.baseline = Option.none ∧ res.delta_percent = Option.none := by
  intro res hres
  simp only [evaluate_gate] at hres
  by_cases ht : gate_thresholds cfg mode = []
  · rw [if_pos ht] at hres
    simp [resultsOf] at hres
  · rw [if_neg ht] at hres
    simp only [resultsOf, merge_results, List.flatten] at hres
    rw [List.append_nil] at hres
    obtain ⟨p, hp, hpe⟩ := List.mem_map.mp hres
    refine ⟨p, hp, ?_⟩
    rw [← hpe]
    exact eval_threshold_fields p.1 _ p.2 mode _ _

/-- C10 witness: the single gate result of the concrete configuration is
tagged `gate.error_rate` with mode "gate" and null baseline and delta. -/
theorem gate_results_tagged_witness :
    ((resultsOf (evaluate_gate exMetrics exGateCfg "resilience" Option.none "t")).map
      (fun r => (r.metric, r.mode, r.baseline, r.delta_percent))) =
      [("gate.error_rate", "gate", Option.none, Option.none)] := by
  have h := gate_results_tagged exMetrics exGateCfg "resilience" Option.none "t"
  have hres : resultsOf (evaluate_gate exMetrics exGateCfg "resilience" Option.none "t")
      = [_evaluate_threshold "error_rate" (Option.some 99)
          { warn := Val.none, fail := Val.num 0, direction := Option.none }
          "resilience" false (Option.some "min_requests not met")] := rfl
  rw [hres] at h ⊢
  obtain ⟨p, hp, h1, h2, h3, h4⟩ := h _ (List.mem_singleton_self _)
  have hp1 : p.1 = "error_rate" := by
    have hmem : p ∈ gate_thresholds exGateCfg "resilience" := hp
    simp [gate_thresholds, exGateCfg, _parse_thresholds] at hmem
    rw [hmem]
  rw [hp1] at h1
  simp [h1, h2, h3, h4]

/-! ## Properties of the history summarizer -/

theorem sum_history_spec (rows : List HistRow) (start w : ℚ) (idx : ℕ) (acc : ℚ × ℚ)
    (hts : ∀ row ∈ rows, row.timestamp ≠ Option.none) :
    _sum_history rows start w idx acc =
      (acc.1 + keptRequests rows start w, acc.2 + keptFailures rows start w) := by
  induction rows generalizing idx acc with
  | nil => simp [_sum_history, keptRequests, keptFailures, keptRows]
  | cons row rest ih =>
    obtain ⟨t, ht⟩ : ∃ t, row.timestamp = Option.some t := by
      cases h : row.timestamp with
      | none => exact absurd h (hts row (List.mem_cons_self _ _))
      | some t => exact ⟨t, rfl⟩
    have hrest : ∀ r ∈ rest, r.timestamp ≠ Option.none :=
      fun r hr => hts r (List.mem_cons_of_mem _ hr)
    simp only [_sum_history, ht, Option.getD_some]
    by_cases hlt : t - start < w
    · rw [if_pos hlt]
      rw [ih (idx + 1) acc hrest]
      simp [keptRequests, keptFailures, keptRows, List.filter_cons, ht, hlt]
    · rw [if_neg hlt]
      rw [ih (idx + 1) _ hrest]
      simp only [keptRequests, keptFailures, keptRows, List.filter_cons, ht,
        Option.getD_some, hlt, decide_False, Bool.not_false, if_true, List.map_cons,
        List.sum_cons]
      rw [Prod.mk.injEq]
      exact ⟨by ring, by ring⟩

/-- C8: for a non-empty history (with timestamps present),
`summarize_history` discards every sample less than `warmup_seconds` after
the first sample's timestamp, sums the remaining per-interval requests and
failures, and reports `error_rate = failures / requests × 100` when the
aggregate requests is positive and a null error rate when it is not. -/
theorem summarize_history_correct (history : List HistRow) (w : ℤ)
    (first : HistRow) (rest : List HistRow)
    (hcons : history = first :: rest)
    (hts : ∀ row ∈ history, row.timestamp ≠ Option.none) :
    ∃ s, summarize_history history w = Option.some s ∧
      s.failures = keptFailures history (first.timestamp.getD 0) (w : ℚ) ∧
      (0 < keptRequests history (first.timestamp.getD 0) (w : ℚ) →
        s.requests = keptRequests history (first.timestamp.getD 0) (w : ℚ) ∧
        s.error_rate = Option.some
          (keptFailures history (first.timestamp.getD 0) (w : ℚ) /
            keptRequests history (first.timestamp.getD 0) (w : ℚ) * 100)) ∧
      (keptRequests history (first.timestamp.getD 0) (w : ℚ) ≤ 0 →
        s.requests = 0 ∧ s.error_rate = Option.none) := by
  subst hcons
  simp only [summarize_history]
  rw [sum_history_spec (first :: rest) (first.timestamp.getD 0) (w : ℚ) 0 (0, 0) hts]
  dsimp only
  rw [zero_add, zero_add]
  by_cases hle : keptRequests (first :: rest) (first.timestamp.getD 0) (w : ℚ) ≤ 0
  · rw [if_pos hle]
    refine ⟨_, rfl, rfl, ?_, ?_⟩
    · intro hpos
      exact absurd hle (not_le.mpr hpos)
    · intro _
      exact ⟨rfl, rfl⟩
  · rw [if_neg hle]
    refine ⟨_, rfl, rfl, ?_, ?_⟩
    · intro _
      exact ⟨rfl, rfl⟩
    · intro hle2
      exact absurd hle2 hle

/-- C8 witness: the spec's example history with a 10-second warm-up keeps
only the sample at t=15 — 30 requests, 3 failures, 10% error rate. -/
theorem summarize_history_correct_witness :
    summarize_history exHist 10 =
      Option.some { requests := 30, failures := 3, error_rate := Option.some 10 } := by
  obtain ⟨s, hsum, hfail, hpos, hneg⟩ :=
    summarize_history_correct exHist 10
      { timestamp := Option.some 0, rps := Val.num 10, failures_s := Val.num 0 }
      [{ timestamp := Option.some 5, rps := Val.num 20, failures_s := Val.num 2 },
       { timestamp := Option.some 15, rps := Val.num 30, failures_s := Val.num 3 }]
      (by rfl) (by decide)
  have hR : keptRequests exHist 0 (10 : ℚ) = 30 := by
    simp [keptRequests, keptRows, exHist, _num_or_zero, _safe_float]
    norm_num
  have hF : keptFailures exHist 0 (10 : ℚ) = 3 := by
    simp [keptFailures, keptRows, exHist, _num_or_zero, _safe_float]
    norm_num
  simp only [Option.getD_some] at hfail hpos
  norm_num [hR, hF] at hfail hpos
  obtain ⟨hreq, herr⟩ := hpos
  rw [hsum]
  cases s with
  | mk sreq sfail serr =>
    simp only at hfail hreq herr
    rw [hfail, hreq, herr]
